import Mathlib

/-!
Verification of the tabular import pipeline of `import_excel_to_sqlite.py`
(scripts `python-database1` and `python-database2`).

The pipeline is: drop and recreate the target table, read the spreadsheet,
validate that every mapped source column label is present, project and rename
the mapped columns, drop duplicate rows on the key column
(`reign_year_ganzhi`, pandas `drop_duplicates(keep='first')`), drop rows whose
required column (`gregorian_date_text`) is the missing-value sentinel
(pandas `dropna`), convert every remaining sentinel to an explicit null
(`df.where(pd.notnull(df), None)`), and bulk-append into a SQLite table whose
key column is `TEXT NOT NULL UNIQUE` and whose required column is
`TEXT NOT NULL`.  All exceptions inside `import_data` are caught and printed;
none propagate to the caller.
-/

/-- A spreadsheet cell as pandas materialises it: either a string value or the
floating-point missing-value sentinel (`NaN`) that pandas uses for blank
cells.  pandas `drop_duplicates` treats two `NaN` cells as equal, which the
derived decidable equality mirrors. -/
inductive Cell where
  | str : String → Cell
  | nan : Cell
deriving DecidableEq, Repr

/-- A persisted row: each column value is either a SQL `TEXT` value or SQL
`NULL` (`Option.none`). -/
abbrev PRow := List (Option String)

/-- Pandas `df.where(pd.notnull(df), None)` on one cell: the `NaN` sentinel
becomes an explicit null, everything else is kept. -/
def normCell : Cell → Option String
  | Cell.str s => some s
  | Cell.nan => none

/-- The tabular input as `pd.read_excel` returns it: the observed column
labels (`df.columns`) and the data rows, each row listing its cells in header
order. -/
structure SourceTable where
  headers : List String
  rows : List (List Cell)
deriving DecidableEq, Repr

/-- The `COLUMN_MAPPING` of `python-database1/import_excel_to_sqlite.py`: ordered
source label to canonical column name pairs.  The first entry is the key
field, the second the required field. -/
def COLUMN_MAPPING : List (String × String) :=
  [("年号干支纪年", "reign_year_ganzhi"),
   ("公元纪年", "gregorian_date_text"),
   ("天文现象记录", "phenomenon_description"),
   ("史料来源", "source_1"),
   ("备注", "remarks"),
   ("史料来源2", "source_2")]

/-- The `COLUMN_MAPPING` of `python-database2/import_excel_to_sqlite.py`. -/
def COLUMN_MAPPING2 : List (String × String) :=
  [("年号干支纪年", "reign_year_ganzhi"),
   ("公元纪年", "gregorian_date_text"),
   ("大气现象记录", "phenomenon_description"),
   ("史料来源", "source"),
   ("备注", "remarks")]

/-- The script's `expected_columns = list(COLUMN_MAPPING.keys())`. -/
def expected_columns (m : List (String × String)) : List String :=
  m.map Prod.fst

/-- The script's `missing_cols`: the expected labels not among the observed
ones, in mapping order. -/
def missing_cols (m : List (String × String)) (actual : List String) : List String :=
  (expected_columns m).filter (fun c => !(actual.contains c))

/-- Reading one labelled cell from a source row: the cell at the label's
position in the header row (`NaN` when the row is ragged short). -/
def lookupCell (headers : List String) (row : List Cell) (label : String) : Cell :=
  match headers.indexOf? label with
  | some i => row.getD i Cell.nan
  | none => Cell.nan

/-- Pandas `df[expected_columns].rename(columns=COLUMN_MAPPING)` on one row: the cells
of the mapped columns, in mapping order.  Index 0 is the key field
`reign_year_ganzhi`, index 1 the required field `gregorian_date_text`. -/
def projectRow (m : List (String × String)) (headers : List String) (row : List Cell) : List Cell :=
  m.map (fun p => lookupCell headers row p.1)

/-- Column projection and rename applied to every source row, preserving the
original row order. -/
def project (m : List (String × String)) (t : SourceTable) : List (List Cell) :=
  t.rows.map (projectRow m t.headers)

/-- The key-field cell of a canonical row (`reign_year_ganzhi`, mapping
position 0). -/
def keyOf (r : List Cell) : Cell := r.getD 0 Cell.nan

/-- The required-field cell of a canonical row (`gregorian_date_text`, mapping
position 1). -/
def requiredOf (r : List Cell) : Cell := r.getD 1 Cell.nan

/-- Pandas `drop_duplicates(subset=['reign_year_ganzhi'], keep='first')`: scan in
source order, keep a row only when its key cell has not been seen before.
`seen` accumulates the key cells of the rows already kept. -/
def dedupAux (seen : List Cell) : List (List Cell) → List (List Cell)
  | [] => []
  | r :: rs =>
    if keyOf r ∈ seen then dedupAux seen rs
    else r :: dedupAux (keyOf r :: seen) rs

/-- Deduplication on the key column, first occurrence wins. -/
def dedupByKey (rs : List (List Cell)) : List (List Cell) := dedupAux [] rs

/-- Pandas `dropna(subset=['gregorian_date_text'])`: remove the rows whose required
cell is the `NaN` sentinel.  An empty-string cell is not `NaN` and is kept. -/
def dropnaRequired (rs : List (List Cell)) : List (List Cell) :=
  rs.filter (fun r => match requiredOf r with | Cell.nan => false | Cell.str _ => true)

/-- Pandas `df.where(pd.notnull(df), None)` on one row: every remaining sentinel in
every column becomes an explicit null. -/
def normalizeRow (r : List Cell) : PRow := r.map normCell

/-- The key-column value of a persisted row. -/
def pkey (r : PRow) : Option String := r.getD 0 none

/-- The required-column value of a persisted row. -/
def preq (r : PRow) : Option String := r.getD 1 none

/-- SQLite's constraint check for inserting one row into the table
`historical_records`: the key column is `NOT NULL UNIQUE` and the required
column is `NOT NULL`.  `NOT NULL` fires on a null value; `UNIQUE` fires when
an already-stored row has the same (non-null) key value. -/
def checkRow (table : List PRow) (r : PRow) : Bool :=
  (pkey r).isSome && (preq r).isSome && table.all (fun t => !(pkey t == pkey r))

/-- Pandas `df_cleaned.to_sql(..., if_exists='append')`: insert the rows one by one;
the first constraint violation aborts with `sqlite3.IntegrityError` and pandas
rolls the transaction back, so the caller keeps the pre-insert table. -/
def insertAll (table : List PRow) : List PRow → Except String (List PRow)
  | [] => Except.ok table
  | r :: rs =>
    if checkRow table r then insertAll (table ++ [r]) rs
    else Except.error "IntegrityError"

/-- Which branch of `import_data` produced the run's final printed report. -/
inductive Outcome where
  | missingColumns : List String → Outcome
  | imported : Nat → Outcome
  | noValidData : Outcome
  | sqliteErrorPrinted : Outcome
deriving DecidableEq, Repr

/-- The observable result of one `import_data` call: the printed branch, the
table contents after the call, the printed counts, and whether an exception
escaped to the caller.  In the script every exception raised inside
`import_data` is caught by an `except` clause that prints a message and falls
through, so `raisedToCaller` is false on every path. -/
structure RunResult where
  outcome : Outcome
  table : List PRow
  rowsRead : Nat
  duplicatesRemoved : Nat
  nullDatesRemoved : Nat
  rowsPersisted : Nat
  raisedToCaller : Bool
deriving DecidableEq, Repr

/-- The script's `df_selected = df[expected_columns].rename(columns=COLUMN_MAPPING)`. -/
def df_selected (m : List (String × String)) (src : SourceTable) : List (List Cell) :=
  project m src

/-- The script's `df_deduplicated`, dropping duplicate key values, first kept. -/
def df_deduplicated (m : List (String × String)) (src : SourceTable) : List (List Cell) :=
  dedupByKey (df_selected m src)

/-- The script's `df_filtered = df_deduplicated.dropna(subset=['gregorian_date_text'])`. -/
def df_filtered (m : List (String × String)) (src : SourceTable) : List (List Cell) :=
  dropnaRequired (df_deduplicated m src)

/-- The script's `df_cleaned = df_filtered.where(pd.notnull(df_filtered), None)`. -/
def df_cleaned (m : List (String × String)) (src : SourceTable) : List PRow :=
  (df_filtered m src).map normalizeRow

/-- The script's `duplicates_removed = rows_after_rename - rows_after_dedup`. -/
def duplicates_removed (m : List (String × String)) (src : SourceTable) : Nat :=
  (df_selected m src).length - (df_deduplicated m src).length

/-- The script's `null_dates_removed = rows_after_dedup - rows_after_dropna`. -/
def null_dates_removed (m : List (String × String)) (src : SourceTable) : Nat :=
  (df_deduplicated m src).length - (df_filtered m src).length

/-- The script's `import_data(conn, xlsx_file)` after a successful
`pd.read_excel`, acting
on the table contents `tbl`: validate columns, project and rename, drop key
duplicates, drop sentinel required cells, normalise sentinels to nulls, and
bulk-append when any rows remain. -/
def import_data (m : List (String × String)) (tbl : List PRow) (src : SourceTable) :
    RunResult :=
  if (missing_cols m src.headers).isEmpty then
    if 0 < (df_cleaned m src).length then
      match insertAll tbl (df_cleaned m src) with
      | Except.ok t =>
          ⟨Outcome.imported (df_cleaned m src).length, t, src.rows.length,
            duplicates_removed m src, null_dates_removed m src,
            (df_cleaned m src).length, false⟩
      | Except.error _ =>
          ⟨Outcome.sqliteErrorPrinted, tbl, src.rows.length,
            duplicates_removed m src, null_dates_removed m src, 0, false⟩
    else
      ⟨Outcome.noValidData, tbl, src.rows.length,
        duplicates_removed m src, null_dates_removed m src, 0, false⟩
  else
    ⟨Outcome.missingColumns (missing_cols m src.headers), tbl, src.rows.length,
      0, 0, 0, false⟩

/-- The script's `drop_and_create_table(conn)`: `DROP TABLE IF EXISTS` followed by
`CREATE TABLE` leaves an empty table whatever was stored before. -/
def drop_and_create_table (_prev : List PRow) : List PRow := []

/-- One run of the script's main program on source `src`, starting from
whatever table contents `prev` a previous run left behind:
`drop_and_create_table` then `import_data`. -/
def script_run (m : List (String × String)) (prev : List PRow) (src : SourceTable) :
    RunResult :=
  import_data m (drop_and_create_table prev) src

/-- The rows of `rs` whose key cell equals `k` (one duplicate group). -/
def keyFilter (k : Cell) (rs : List (List Cell)) : List (List Cell) :=
  rs.filter (fun r => decide (keyOf r = k))

/-- The column labels of script 1's spreadsheet when no label is missing. -/
def fullHeaders : List String :=
  ["年号干支纪年", "公元纪年", "天文现象记录", "史料来源", "备注", "史料来源2"]

/-- A source whose single row has key `"A"` and whose required cell holds the
empty string: `dropna` keeps it, so it is persisted with an empty required
value. -/
def srcEmptyRequired : SourceTable :=
  ⟨fullHeaders,
   [[Cell.str "A", Cell.str "", Cell.nan, Cell.nan, Cell.nan, Cell.nan]]⟩

/-- A source whose single row has a blank (sentinel) key cell but a present
required cell: it survives both filters and then violates the key column's
`NOT NULL` constraint at insert time. -/
def srcNanKey : SourceTable :=
  ⟨fullHeaders,
   [[Cell.nan, Cell.str "x", Cell.nan, Cell.nan, Cell.nan, Cell.nan]]⟩

/-- A two-row source: one well-formed row followed by a row with a blank key
cell and a present required cell, so the bulk insert fails. -/
def srcNanKeyTwo : SourceTable :=
  ⟨fullHeaders,
   [[Cell.str "B", Cell.str "y", Cell.nan, Cell.nan, Cell.nan, Cell.nan],
    [Cell.nan, Cell.str "x", Cell.nan, Cell.nan, Cell.nan, Cell.nan]]⟩

/-- A source whose first row has a blank (sentinel) key cell and whose second
row has an empty-string key cell: two distinct key values for pandas. -/
def srcMixedEmptyKeys : SourceTable :=
  ⟨fullHeaders,
   [[Cell.nan, Cell.str "d1", Cell.nan, Cell.nan, Cell.nan, Cell.nan],
    [Cell.str "", Cell.str "d2", Cell.nan, Cell.nan, Cell.nan, Cell.nan]]⟩

/-- Two rows sharing key `"K"`: the first lacks the required cell, the second
has it.  Deduplication keeps only the first, the required-field filter then
drops it, so no row with key `"K"` is persisted. -/
def srcFirstDupMissingRequired : SourceTable :=
  ⟨fullHeaders,
   [[Cell.str "K", Cell.nan, Cell.nan, Cell.nan, Cell.nan, Cell.nan],
    [Cell.str "K", Cell.str "d", Cell.nan, Cell.nan, Cell.nan, Cell.nan]]⟩

/-- The five-row scenario of the specification: rows 2 and 4 share key
`"A1"`, row 3 lacks the required cell, row 5 has a sentinel in an optional
field. -/
def srcFiveRows : SourceTable :=
  ⟨fullHeaders,
   [[Cell.str "K1", Cell.str "d1", Cell.str "p1", Cell.nan, Cell.nan, Cell.nan],
    [Cell.str "A1", Cell.str "d2", Cell.nan, Cell.nan, Cell.nan, Cell.nan],
    [Cell.str "K3", Cell.nan, Cell.nan, Cell.nan, Cell.nan, Cell.nan],
    [Cell.str "A1", Cell.str "d4", Cell.nan, Cell.nan, Cell.nan, Cell.nan],
    [Cell.str "K5", Cell.str "d5", Cell.nan, Cell.nan, Cell.nan, Cell.nan]]⟩

/-- A source exposing only the required-field label, so five mapped labels
are missing. -/
def srcMissingLabels : SourceTable :=
  ⟨["公元纪年"], [[Cell.str "d"]]⟩

/-! ## Basic lemmas about the pipeline stages -/

theorem dedupAux_sublist (seen : List Cell) (rs : List (List Cell)) :
    List.Sublist (dedupAux seen rs) rs := by
  induction rs generalizing seen with
  | nil => simp [dedupAux]
  | cons r rs ih =>
    by_cases h : keyOf r ∈ seen
    · rw [dedupAux, if_pos h]
      exact (ih seen).trans (List.sublist_cons_self r rs)
    · rw [dedupAux, if_neg h]
      exact (ih (keyOf r :: seen)).cons₂ r

theorem keyOf_mem_dedupAux {seen : List Cell} {rs : List (List Cell)} :
    ∀ x ∈ dedupAux seen rs, keyOf x ∉ seen := by
  induction rs generalizing seen with
  | nil => simp [dedupAux]
  | cons r rs ih =>
    intro x hx
    by_cases h : keyOf r ∈ seen
    · rw [dedupAux, if_pos h] at hx
      exact ih x hx
    · rw [dedupAux, if_neg h] at hx
      rcases List.mem_cons.mp hx with rfl | hx
      · exact h
      · intro hmem
        exact ih x hx (List.mem_cons_of_mem _ hmem)

theorem dedupAux_pairwise (seen : List Cell) (rs : List (List Cell)) :
    (dedupAux seen rs).Pairwise (fun a b => keyOf a ≠ keyOf b) := by
  induction rs generalizing seen with
  | nil => simp [dedupAux]
  | cons r rs ih =>
    by_cases h : keyOf r ∈ seen
    · rw [dedupAux, if_pos h]
      exact ih seen
    · rw [dedupAux, if_neg h]
      refine List.Pairwise.cons ?_ (ih _)
      intro b hb he
      exact keyOf_mem_dedupAux b hb (List.mem_cons.mpr (Or.inl he.symm))

theorem keyFilter_cons (k : Cell) (r : List Cell) (rs : List (List Cell)) :
    keyFilter k (r :: rs) =
      if keyOf r = k then r :: keyFilter k rs else keyFilter k rs := by
  rw [keyFilter, List.filter_cons]
  by_cases hrk : keyOf r = k
  · rw [if_pos (by simp [hrk]), if_pos hrk]
    rfl
  · rw [if_neg (by simp [hrk]), if_neg hrk]
    rfl

theorem dedupAux_keyFilter (k : Cell) (seen : List Cell) (rs : List (List Cell)) :
    keyFilter k (dedupAux seen rs) =
      if k ∈ seen then [] else (keyFilter k rs).take 1 := by
  induction rs generalizing seen with
  | nil => simp [dedupAux, keyFilter]
  | cons r rs ih =>
    rw [dedupAux]
    by_cases h : keyOf r ∈ seen
    · rw [if_pos h, ih]
      by_cases hk : k ∈ seen
      · rw [if_pos hk, if_pos hk]
      · have hrk : ¬ keyOf r = k := fun he => hk (he ▸ h)
        rw [if_neg hk, if_neg hk, keyFilter_cons, if_neg hrk]
    · rw [if_neg h, keyFilter_cons]
      by_cases hrk : keyOf r = k
      · have hk : k ∉ seen := hrk ▸ h
        rw [if_pos hrk, ih,
            if_pos (show k ∈ keyOf r :: seen from hrk ▸ List.mem_cons_self _ _),
            if_neg hk, keyFilter_cons, if_pos hrk]
        rfl
      · have hkk : (k ∈ keyOf r :: seen) ↔ k ∈ seen := by
          constructor
          · intro hc
            rcases List.mem_cons.mp hc with he | he
            · exact absurd he.symm hrk
            · exact he
          · exact fun hc => List.mem_cons_of_mem _ hc
        rw [if_neg hrk, ih, keyFilter_cons, if_neg hrk]
        by_cases hk : k ∈ seen
        · rw [if_pos (hkk.mpr hk), if_pos hk]
        · rw [if_neg (fun hc => hk (hkk.mp hc)), if_neg hk]

theorem dedupByKey_sublist (rs : List (List Cell)) : List.Sublist (dedupByKey rs) rs :=
  dedupAux_sublist [] rs

theorem dedupByKey_pairwise (rs : List (List Cell)) :
    (dedupByKey rs).Pairwise (fun a b => keyOf a ≠ keyOf b) :=
  dedupAux_pairwise [] rs

theorem dedupByKey_keyFilter (k : Cell) (rs : List (List Cell)) :
    keyFilter k (dedupByKey rs) = (keyFilter k rs).take 1 := by
  rw [dedupByKey, dedupAux_keyFilter]
  simp

theorem dropnaRequired_sublist (rs : List (List Cell)) :
    List.Sublist (dropnaRequired rs) rs :=
  List.filter_sublist rs

theorem requiredOf_of_mem_dropnaRequired {rs : List (List Cell)} {r : List Cell}
    (h : r ∈ dropnaRequired rs) : ∃ s, requiredOf r = Cell.str s := by
  have hp := (List.mem_filter.mp h).2
  cases hr : requiredOf r with
  | str s => exact ⟨s, rfl⟩
  | nan => rw [hr] at hp; simp at hp

theorem pkey_normalizeRow (r : List Cell) : pkey (normalizeRow r) = normCell (keyOf r) := by
  cases r <;> rfl

theorem preq_normalizeRow (r : List Cell) : preq (normalizeRow r) = normCell (requiredOf r) := by
  rcases r with _ | ⟨a, _ | ⟨b, t⟩⟩ <;> rfl

theorem normCell_inj {a b : Cell} (h : normCell a = normCell b) : a = b := by
  cases a <;> cases b <;> simp_all [normCell]

/-! ## Lemmas about the bulk insert -/

theorem insertAll_ok_append {tbl rs t} (h : insertAll tbl rs = Except.ok t) :
    t = tbl ++ rs := by
  induction rs generalizing tbl with
  | nil =>
    rw [insertAll] at h
    cases h
    simp
  | cons r rs ih =>
    rw [insertAll] at h
    by_cases hc : checkRow tbl r
    · rw [if_pos hc] at h
      have := ih h
      simpa [List.append_assoc] using this
    · rw [if_neg hc] at h
      exact Except.noConfusion h

theorem insertAll_ok_of_valid (rs : List PRow) :
    ∀ tbl, (∀ r ∈ rs, (pkey r).isSome ∧ (preq r).isSome) →
    rs.Pairwise (fun a b => pkey a ≠ pkey b) →
    (∀ t ∈ tbl, ∀ r ∈ rs, pkey t ≠ pkey r) →
    insertAll tbl rs = Except.ok (tbl ++ rs) := by
  induction rs with
  | nil =>
    intro tbl _ _ _
    simp [insertAll]
  | cons r rs ih =>
    intro tbl h1 h2 h3
    have hr := h1 r (List.mem_cons_self _ _)
    have hc : checkRow tbl r = true := by
      simp only [checkRow, Bool.and_eq_true, List.all_eq_true]
      refine ⟨⟨hr.1, hr.2⟩, ?_⟩
      intro t ht
      simp only [Bool.not_eq_true', beq_eq_false_iff_ne, ne_eq]
      exact h3 t ht r (List.mem_cons_self _ _)
    rw [insertAll, if_pos hc]
    have hpw := List.pairwise_cons.mp h2
    have h3' : ∀ t ∈ tbl ++ [r], ∀ x ∈ rs, pkey t ≠ pkey x := by
      intro t ht x hx
      rcases List.mem_append.mp ht with ht | ht
      · exact h3 t ht x (List.mem_cons_of_mem _ hx)
      · rcases List.mem_singleton.mp ht with rfl
        exact hpw.1 x hx
    have := ih (tbl ++ [r]) (fun x hx => h1 x (List.mem_cons_of_mem _ hx)) hpw.2 h3'
    rw [this]
    simp [List.append_assoc]

/-! ## Properties of the cleaned rows -/

theorem df_cleaned_preq_isSome (m : List (String × String)) (src : SourceTable) :
    ∀ p ∈ df_cleaned m src, (preq p).isSome := by
  intro p hp
  rcases List.mem_map.mp hp with ⟨r, hr, rfl⟩
  rcases requiredOf_of_mem_dropnaRequired hr with ⟨s, hs⟩
  rw [preq_normalizeRow, hs]
  rfl

theorem df_cleaned_pairwise (m : List (String × String)) (src : SourceTable) :
    (df_cleaned m src).Pairwise (fun a b => pkey a ≠ pkey b) := by
  have h1 : (df_filtered m src).Pairwise (fun a b => keyOf a ≠ keyOf b) :=
    List.Pairwise.sublist (dropnaRequired_sublist _) (dedupByKey_pairwise _)
  rw [df_cleaned, List.pairwise_map]
  refine h1.imp ?_
  intro a b hab he
  rw [pkey_normalizeRow, pkey_normalizeRow] at he
  exact hab (normCell_inj he)

theorem df_cleaned_pkey_isSome (m : List (String × String)) (src : SourceTable)
    (h : ∀ r ∈ project m src, keyOf r ≠ Cell.nan) :
    ∀ p ∈ df_cleaned m src, (pkey p).isSome := by
  intro p hp
  rcases List.mem_map.mp hp with ⟨r, hr, rfl⟩
  have hrp : r ∈ project m src :=
    (dropnaRequired_sublist _).subset hr |> fun hmem =>
      (dedupByKey_sublist _).subset hmem
  rw [pkey_normalizeRow]
  cases hk : keyOf r with
  | str s => rfl
  | nan => exact absurd hk (h r hrp)

/-! ## Case analysis of one `import_data` call -/

theorem script_run_eq (m : List (String × String)) (prev : List PRow) (src : SourceTable) :
    script_run m prev src = import_data m [] src := rfl

theorem import_data_spec (m : List (String × String)) (tbl : List PRow) (src : SourceTable) :
    (missing_cols m src.headers ≠ [] ∧
      import_data m tbl src =
        ⟨Outcome.missingColumns (missing_cols m src.headers), tbl, src.rows.length,
          0, 0, 0, false⟩) ∨
    (missing_cols m src.headers = [] ∧ df_cleaned m src = [] ∧
      import_data m tbl src =
        ⟨Outcome.noValidData, tbl, src.rows.length, duplicates_removed m src,
          null_dates_removed m src, 0, false⟩) ∨
    (missing_cols m src.headers = [] ∧ df_cleaned m src ≠ [] ∧
      ((∃ t, insertAll tbl (df_cleaned m src) = Except.ok t ∧
          import_data m tbl src =
            ⟨Outcome.imported (df_cleaned m src).length, t, src.rows.length,
              duplicates_removed m src, null_dates_removed m src,
              (df_cleaned m src).length, false⟩) ∨
        (∃ e, insertAll tbl (df_cleaned m src) = Except.error e ∧
          import_data m tbl src =
            ⟨Outcome.sqliteErrorPrinted, tbl, src.rows.length,
              duplicates_removed m src, null_dates_removed m src, 0, false⟩))) := by
  by_cases hm : (missing_cols m src.headers).isEmpty
  · have hm' : missing_cols m src.headers = [] := by
      rwa [List.isEmpty_iff] at hm
    by_cases hl : 0 < (df_cleaned m src).length
    · have hne : df_cleaned m src ≠ [] := by
        intro he
        rw [he] at hl
        simp at hl
      refine Or.inr (Or.inr ⟨hm', hne, ?_⟩)
      cases hins : insertAll tbl (df_cleaned m src) with
      | ok t =>
        refine Or.inl ⟨t, rfl, ?_⟩
        simp only [import_data]
        rw [if_pos hm, if_pos hl, hins]
      | error e =>
        refine Or.inr ⟨e, rfl, ?_⟩
        simp only [import_data]
        rw [if_pos hm, if_pos hl, hins]
    · have he : df_cleaned m src = [] := by
        cases hc : df_cleaned m src with
        | nil => rfl
        | cons a l => rw [hc] at hl; simp at hl
      refine Or.inr (Or.inl ⟨hm', he, ?_⟩)
      simp only [import_data]
      rw [if_pos hm, if_neg hl]
  · have hm' : missing_cols m src.headers ≠ [] := by
      intro he
      rw [he] at hm
      simp at hm
    refine Or.inl ⟨hm', ?_⟩
    simp only [import_data]
    rw [if_neg hm]

/-! ## Claim theorems -/

/-- C1 (amended): after a successful run — the bulk insert succeeded, or there
was nothing to insert — the persisted table has at most one record per
distinct key-field value, and every persisted record's required field is
present (non-null); it may however be the empty string. -/
theorem C1_theorem (m : List (String × String)) (prev : List PRow) (src : SourceTable)
    (h : (∃ n, (script_run m prev src).outcome = Outcome.imported n) ∨
         (script_run m prev src).outcome = Outcome.noValidData) :
    (script_run m prev src).table.Pairwise (fun a b => pkey a ≠ pkey b) ∧
    ∀ p ∈ (script_run m prev src).table, (preq p).isSome := by
  rw [script_run_eq] at h ⊢
  rcases import_data_spec m [] src with ⟨hm, heq⟩ | ⟨hm, hc, heq⟩ |
    ⟨hm, hc, ⟨t, hins, heq⟩ | ⟨e, hins, heq⟩⟩
  · rw [heq] at h
    rcases h with ⟨n, h⟩ | h <;> simp at h
  · rw [heq]
    constructor
    · exact List.Pairwise.nil
    · intro p hp
      simp at hp
  · rw [heq]
    have ht : t = df_cleaned m src := by
      simpa using insertAll_ok_append hins
    subst ht
    exact ⟨df_cleaned_pairwise m src, df_cleaned_preq_isSome m src⟩
  · rw [heq] at h
    rcases h with ⟨n, h⟩ | h <;> simp at h

/-- Witness for C1 at the five-row source: the run imports three rows and the
invariant holds on the resulting table. -/
theorem C1_witness :
    ((∃ n, (script_run COLUMN_MAPPING [] srcFiveRows).outcome = Outcome.imported n) ∨
      (script_run COLUMN_MAPPING [] srcFiveRows).outcome = Outcome.noValidData) ∧
    ((script_run COLUMN_MAPPING [] srcFiveRows).table.Pairwise (fun a b => pkey a ≠ pkey b) ∧
      ∀ p ∈ (script_run COLUMN_MAPPING [] srcFiveRows).table, (preq p).isSome) :=
  ⟨Or.inl ⟨3, rfl⟩, C1_theorem COLUMN_MAPPING [] srcFiveRows (Or.inl ⟨3, rfl⟩)⟩

/-- C1 counterexample: a row whose required cell holds the empty string passes
`dropna` and is persisted, so a successful run's table can hold a record whose
required field is empty — the claim's "non-empty required field" fails. -/
theorem C1_counterexample :
    (script_run COLUMN_MAPPING [] srcEmptyRequired).outcome = Outcome.imported 1 ∧
    ¬ (∀ p ∈ (script_run COLUMN_MAPPING [] srcEmptyRequired).table,
        ∀ s, preq p = some s → s ≠ "") := by
  constructor
  · rfl
  · intro hall
    have hmem : [some "A", some "", none, none, none, none] ∈
        (script_run COLUMN_MAPPING [] srcEmptyRequired).table := by
      have htab : (script_run COLUMN_MAPPING [] srcEmptyRequired).table =
          [[some "A", some "", none, none, none, none]] := rfl
      rw [htab]
      exact List.mem_singleton.mpr rfl
    exact hall _ hmem "" rfl rfl

/-- C2: when the input holds duplicate key values, deduplication keeps, for
every key value, exactly the first occurrence in source order, the survivors
keep their original relative order (sublist), and the persisted table of a
successful import is exactly the normalisation of those survivors that passed
the required-field filter. -/
theorem C2_theorem (m : List (String × String)) (prev : List PRow) (src : SourceTable)
    (h : ∃ k, 2 ≤ (keyFilter k (df_selected m src)).length) :
    List.Sublist (df_deduplicated m src) (df_selected m src) ∧
    (∀ k, keyFilter k (df_deduplicated m src) = (keyFilter k (df_selected m src)).take 1) ∧
    ∀ n, (script_run m prev src).outcome = Outcome.imported n →
      (script_run m prev src).table = (df_filtered m src).map normalizeRow := by
  clear h
  refine ⟨dedupByKey_sublist _, fun k => dedupByKey_keyFilter k _, ?_⟩
  intro n ho
  rw [script_run_eq] at ho ⊢
  rcases import_data_spec m [] src with ⟨hm, heq⟩ | ⟨hm, hc, heq⟩ |
    ⟨hm, hc, ⟨t, hins, heq⟩ | ⟨e, hins, heq⟩⟩
  · rw [heq] at ho; simp at ho
  · rw [heq] at ho; simp at ho
  · rw [heq]
    have ht : t = df_cleaned m src := by
      simpa using insertAll_ok_append hins
    exact ht
  · rw [heq] at ho; simp at ho

/-- Witness for C2 at the five-row source, whose rows 2 and 4 share key
`"A1"`. -/
theorem C2_witness :
    (∃ k, 2 ≤ (keyFilter k (df_selected COLUMN_MAPPING srcFiveRows)).length) ∧
    (List.Sublist (df_deduplicated COLUMN_MAPPING srcFiveRows)
        (df_selected COLUMN_MAPPING srcFiveRows) ∧
      (∀ k, keyFilter k (df_deduplicated COLUMN_MAPPING srcFiveRows) =
        (keyFilter k (df_selected COLUMN_MAPPING srcFiveRows)).take 1) ∧
      ∀ n, (script_run COLUMN_MAPPING [] srcFiveRows).outcome = Outcome.imported n →
        (script_run COLUMN_MAPPING [] srcFiveRows).table =
          (df_filtered COLUMN_MAPPING srcFiveRows).map normalizeRow) :=
  ⟨⟨Cell.str "A1", by decide⟩,
    C2_theorem COLUMN_MAPPING [] srcFiveRows ⟨Cell.str "A1", by decide⟩⟩

/-- C3 counterexample: a row with a blank (sentinel) key cell and a present
required cell survives both `drop_duplicates` and `dropna`, its key is
normalised to null, and the bulk insert then violates the key column's
`NOT NULL` constraint — the persist error branch is reachable. -/
theorem C3_counterexample :
    insertAll [] (df_cleaned COLUMN_MAPPING srcNanKey) = Except.error "IntegrityError" ∧
    (script_run COLUMN_MAPPING [] srcNanKey).outcome = Outcome.sqliteErrorPrinted :=
  ⟨rfl, rfl⟩

/-- C3 (amended): the persist step's constraint-violation branch is
unreachable for every input in which each projected row has a present
(non-sentinel) key cell: the deduplicated, filtered, normalised rows then
satisfy the key column's UNIQUE and NOT NULL constraints and the required
column's NOT NULL constraint, so the bulk insert succeeds.  Rows with a
missing key are not removed by either filter and do reach the error branch. -/
theorem C3_theorem (m : List (String × String)) (prev : List PRow) (src : SourceTable)
    (h : ∀ r ∈ df_selected m src, keyOf r ≠ Cell.nan) :
    insertAll (drop_and_create_table prev) (df_cleaned m src) =
      Except.ok (df_cleaned m src) ∧
    (script_run m prev src).outcome ≠ Outcome.sqliteErrorPrinted := by
  have hvalid : ∀ p ∈ df_cleaned m src, (pkey p).isSome ∧ (preq p).isSome := by
    intro p hp
    exact ⟨df_cleaned_pkey_isSome m src h p hp, df_cleaned_preq_isSome m src p hp⟩
  have hins : insertAll [] (df_cleaned m src) = Except.ok (df_cleaned m src) := by
    have hok := insertAll_ok_of_valid (df_cleaned m src) [] hvalid
      (df_cleaned_pairwise m src) (by intro t ht; simp at ht)
    simpa using hok
  refine ⟨hins, ?_⟩
  rw [script_run_eq]
  rcases import_data_spec m [] src with ⟨hm, heq⟩ | ⟨hm, hc, heq⟩ |
    ⟨hm, hc, ⟨t, hins2, heq⟩ | ⟨e, hins2, heq⟩⟩
  · rw [heq]; simp
  · rw [heq]; simp
  · rw [heq]; simp
  · rw [hins] at hins2
    exact Except.noConfusion hins2

/-- Witness for C3 at the five-row source, all of whose keys are present. -/
theorem C3_witness :
    (∀ r ∈ df_selected COLUMN_MAPPING srcFiveRows, keyOf r ≠ Cell.nan) ∧
    (insertAll (drop_and_create_table []) (df_cleaned COLUMN_MAPPING srcFiveRows) =
        Except.ok (df_cleaned COLUMN_MAPPING srcFiveRows) ∧
      (script_run COLUMN_MAPPING [] srcFiveRows).outcome ≠ Outcome.sqliteErrorPrinted) :=
  ⟨by decide, C3_theorem COLUMN_MAPPING [] srcFiveRows (by decide)⟩

/-- C4 counterexample: on an input whose bulk insert violates a constraint,
the run ends in the branch that merely prints the SQLite error; no error is
raised to the caller, so the violation is not surfaced as an error. -/
theorem C4_counterexample :
    (∃ e, insertAll [] (df_cleaned COLUMN_MAPPING srcNanKeyTwo) = Except.error e) ∧
    (script_run COLUMN_MAPPING [] srcNanKeyTwo).outcome = Outcome.sqliteErrorPrinted ∧
    (script_run COLUMN_MAPPING [] srcNanKeyTwo).raisedToCaller = false :=
  ⟨⟨"IntegrityError", rfl⟩, rfl, rfl⟩

/-- C4 (amended): when the bulk insert hits a constraint violation, the
pipeline catches the exception, reports it as a printed message, performs no
retry, leaves the table in its pre-insert (freshly reset) state, and returns
normally — it does not propagate an error to the caller. -/
theorem C4_theorem (m : List (String × String)) (prev : List PRow) (src : SourceTable)
    (hm : missing_cols m src.headers = [])
    (h : ∃ e, insertAll (drop_and_create_table prev) (df_cleaned m src) = Except.error e) :
    (script_run m prev src).outcome = Outcome.sqliteErrorPrinted ∧
    (script_run m prev src).raisedToCaller = false ∧
    (script_run m prev src).table = drop_and_create_table prev := by
  rcases h with ⟨e, he⟩
  have he' : insertAll [] (df_cleaned m src) = Except.error e := he
  rw [script_run_eq]
  rcases import_data_spec m [] src with ⟨hm', heq⟩ | ⟨hm', hc, heq⟩ |
    ⟨hm', hc, ⟨t, hins, heq⟩ | ⟨e', hins, heq⟩⟩
  · exact absurd hm hm'
  · rw [hc] at he'
    simp [insertAll] at he'
  · rw [he'] at hins
    exact Except.noConfusion hins
  · rw [heq]
    exact ⟨rfl, rfl, rfl⟩

/-- Witness for C4 at the two-row source whose second row has a blank key. -/
theorem C4_witness :
    missing_cols COLUMN_MAPPING srcNanKeyTwo.headers = [] ∧
    (∃ e, insertAll (drop_and_create_table [])
        (df_cleaned COLUMN_MAPPING srcNanKeyTwo) = Except.error e) ∧
    ((script_run COLUMN_MAPPING [] srcNanKeyTwo).outcome = Outcome.sqliteErrorPrinted ∧
      (script_run COLUMN_MAPPING [] srcNanKeyTwo).raisedToCaller = false ∧
      (script_run COLUMN_MAPPING [] srcNanKeyTwo).table = drop_and_create_table []) :=
  ⟨rfl, ⟨"IntegrityError", rfl⟩,
    C4_theorem COLUMN_MAPPING [] srcNanKeyTwo rfl ⟨"IntegrityError", rfl⟩⟩

/-- C5: when at least one mapped source label is absent from the observed
labels, the run stops in the missing-columns branch naming exactly the
labels of the mapping that are not observed, no counts are produced, and the
table is left freshly initialised and empty. -/
theorem C5_theorem (m : List (String × String)) (prev : List PRow) (src : SourceTable)
    (h : missing_cols m src.headers ≠ []) :
    (script_run m prev src).outcome = Outcome.missingColumns (missing_cols m src.headers) ∧
    (∀ l, l ∈ missing_cols m src.headers ↔ l ∈ expected_columns m ∧ l ∉ src.headers) ∧
    (script_run m prev src).table = [] ∧
    (script_run m prev src).rowsPersisted = 0 ∧
    (script_run m prev src).duplicatesRemoved = 0 ∧
    (script_run m prev src).nullDatesRemoved = 0 := by
  have hmem : ∀ l, l ∈ missing_cols m src.headers ↔
      l ∈ expected_columns m ∧ l ∉ src.headers := by
    intro l
    simp [missing_cols, List.mem_filter]
  rw [script_run_eq]
  rcases import_data_spec m [] src with ⟨hm, heq⟩ | ⟨hm, hc, heq⟩ |
    ⟨hm, hc, ⟨t, hins, heq⟩ | ⟨e, hins, heq⟩⟩
  · rw [heq]
    exact ⟨rfl, hmem, rfl, rfl, rfl, rfl⟩
  · exact absurd hm h
  · exact absurd hm h
  · exact absurd hm h

/-- Witness for C5 at a source exposing only one of the six mapped labels. -/
theorem C5_witness :
    missing_cols COLUMN_MAPPING srcMissingLabels.headers ≠ [] ∧
    ((script_run COLUMN_MAPPING [] srcMissingLabels).outcome =
        Outcome.missingColumns (missing_cols COLUMN_MAPPING srcMissingLabels.headers) ∧
      (∀ l, l ∈ missing_cols COLUMN_MAPPING srcMissingLabels.headers ↔
        l ∈ expected_columns COLUMN_MAPPING ∧ l ∉ srcMissingLabels.headers) ∧
      (script_run COLUMN_MAPPING [] srcMissingLabels).table = [] ∧
      (script_run COLUMN_MAPPING [] srcMissingLabels).rowsPersisted = 0 ∧
      (script_run COLUMN_MAPPING [] srcMissingLabels).duplicatesRemoved = 0 ∧
      (script_run COLUMN_MAPPING [] srcMissingLabels).nullDatesRemoved = 0) :=
  ⟨by decide, C5_theorem COLUMN_MAPPING [] srcMissingLabels (by decide)⟩

/-- C6: re-running the pipeline on the same input and configuration, starting
from whatever the first run left in the table, reproduces the first run's
table contents exactly, because the table is unconditionally dropped and
recreated at the start of every run. -/
theorem C6_theorem (m : List (String × String)) (prev : List PRow) (src : SourceTable) :
    (script_run m (script_run m prev src).table src).table = (script_run m prev src).table ∧
    script_run m (script_run m prev src).table src = script_run m prev src :=
  ⟨rfl, rfl⟩

/-- C7 counterexample: a source whose first row has a blank (sentinel) key and
whose second row has an empty-string key.  Both rows have an empty/missing
key, yet deduplication keeps both, because pandas compares key cells by value
and the sentinel and the empty string are different values — they do not form
a single duplicate group. -/
theorem C7_counterexample :
    (∀ r ∈ df_selected COLUMN_MAPPING srcMixedEmptyKeys,
        keyOf r = Cell.nan ∨ keyOf r = Cell.str "") ∧
    df_deduplicated COLUMN_MAPPING srcMixedEmptyKeys =
      df_selected COLUMN_MAPPING srcMixedEmptyKeys ∧
    (df_deduplicated COLUMN_MAPPING srcMixedEmptyKeys).length = 2 :=
  ⟨by decide, rfl, rfl⟩

/-- C7 (amended): deduplication does not special-case empty or missing key
values, but each representation is its own duplicate group: among rows whose
key is the missing-value sentinel only the first is retained, and among rows
whose key is the empty string only the first is retained; a sentinel key and
an empty-string key count as distinct key values. -/
theorem C7_theorem (rs : List (List Cell)) :
    keyFilter Cell.nan (dedupByKey rs) = (keyFilter Cell.nan rs).take 1 ∧
    keyFilter (Cell.str "") (dedupByKey rs) = (keyFilter (Cell.str "") rs).take 1 :=
  ⟨dedupByKey_keyFilter _ _, dedupByKey_keyFilter _ _⟩

/-- C8: on a successful import, every persisted row is the normalisation of a
surviving filtered row, in which every sentinel cell has become an explicit
null and every string cell is stored as its value — the persist step writes
true nulls, never the sentinel. -/
theorem C8_theorem (m : List (String × String)) (prev : List PRow) (src : SourceTable)
    (n : Nat) (h : (script_run m prev src).outcome = Outcome.imported n) :
    ∀ p ∈ (script_run m prev src).table,
      ∃ r ∈ df_filtered m src, p = normalizeRow r ∧
        (∀ i : Nat, r[i]? = some Cell.nan → p[i]? = some none) ∧
        (∀ (i : Nat) (s : String), r[i]? = some (Cell.str s) → p[i]? = some (some s)) := by
  rw [script_run_eq] at h ⊢
  rcases import_data_spec m [] src with ⟨hm, heq⟩ | ⟨hm, hc, heq⟩ |
    ⟨hm, hc, ⟨t, hins, heq⟩ | ⟨e, hins, heq⟩⟩
  · rw [heq] at h; simp at h
  · rw [heq] at h; simp at h
  · rw [heq]
    have ht : t = df_cleaned m src := by
      simpa using insertAll_ok_append hins
    subst ht
    intro p hp
    have hp' : p ∈ df_cleaned m src := hp
    rcases List.mem_map.mp hp' with ⟨r, hr, rfl⟩
    refine ⟨r, hr, rfl, ?_, ?_⟩
    · intro i hi
      rw [normalizeRow, List.getElem?_map, hi]
      rfl
    · intro i s hi
      rw [normalizeRow, List.getElem?_map, hi]
      rfl
  · rw [heq] at h; simp at h

/-- Witness for C8 at the five-row source, whose fifth row carries a sentinel
in an optional field and is persisted with a null there. -/
theorem C8_witness :
    (script_run COLUMN_MAPPING [] srcFiveRows).outcome = Outcome.imported 3 ∧
    ∀ p ∈ (script_run COLUMN_MAPPING [] srcFiveRows).table,
      ∃ r ∈ df_filtered COLUMN_MAPPING srcFiveRows, p = normalizeRow r ∧
        (∀ i : Nat, r[i]? = some Cell.nan → p[i]? = some none) ∧
        (∀ (i : Nat) (s : String), r[i]? = some (Cell.str s) → p[i]? = some (some s)) :=
  ⟨rfl, C8_theorem COLUMN_MAPPING [] srcFiveRows 3 rfl⟩

/-- C9: because deduplication runs strictly before the required-field filter,
on the two-row source whose rows both carry key `"K"` — the first lacking the
required cell, the second having it — no record with key `"K"` is persisted:
the later row is discarded as a duplicate and the first is then dropped for
its missing required cell, so the run ends with no valid data and an empty
table. -/
theorem C9_theorem :
    keyOf ((df_selected COLUMN_MAPPING srcFirstDupMissingRequired).getD 0 []) =
      Cell.str "K" ∧
    keyOf ((df_selected COLUMN_MAPPING srcFirstDupMissingRequired).getD 1 []) =
      Cell.str "K" ∧
    requiredOf ((df_selected COLUMN_MAPPING srcFirstDupMissingRequired).getD 0 []) =
      Cell.nan ∧
    requiredOf ((df_selected COLUMN_MAPPING srcFirstDupMissingRequired).getD 1 []) =
      Cell.str "d" ∧
    (script_run COLUMN_MAPPING [] srcFirstDupMissingRequired).outcome =
      Outcome.noValidData ∧
    (script_run COLUMN_MAPPING [] srcFirstDupMissingRequired).table = [] :=
  ⟨rfl, rfl, rfl, rfl, rfl, rfl⟩

/-- C10: on a run that passes column validation and persists without error,
the reported counts are conserved: rows read equals duplicates removed plus
rows removed for a missing required field plus rows persisted. -/
theorem C10_theorem (m : List (String × String)) (prev : List PRow) (src : SourceTable)
    (n : Nat) (h : (script_run m prev src).outcome = Outcome.imported n) :
    (script_run m prev src).rowsRead =
      (script_run m prev src).duplicatesRemoved +
        (script_run m prev src).nullDatesRemoved +
          (script_run m prev src).rowsPersisted := by
  rw [script_run_eq] at h ⊢
  rcases import_data_spec m [] src with ⟨hm, heq⟩ | ⟨hm, hc, heq⟩ |
    ⟨hm, hc, ⟨t, hins, heq⟩ | ⟨e, hins, heq⟩⟩
  · rw [heq] at h; simp at h
  · rw [heq] at h; simp at h
  · rw [heq]
    show src.rows.length =
      duplicates_removed m src + null_dates_removed m src + (df_cleaned m src).length
    have h1 : (df_deduplicated m src).length ≤ (df_selected m src).length :=
      (dedupByKey_sublist _).length_le
    have h2 : (df_filtered m src).length ≤ (df_deduplicated m src).length :=
      (dropnaRequired_sublist _).length_le
    have h3 : (df_selected m src).length = src.rows.length := by
      rw [df_selected, project, List.length_map]
    have h4 : (df_cleaned m src).length = (df_filtered m src).length := by
      rw [df_cleaned, List.length_map]
    rw [duplicates_removed, null_dates_removed, h4]
    omega
  · rw [heq] at h; simp at h

/-- Witness for C10 at the five-row source: 5 rows read, 1 duplicate removed,
1 row removed for a missing required field, 3 rows persisted. -/
theorem C10_witness :
    (script_run COLUMN_MAPPING [] srcFiveRows).outcome = Outcome.imported 3 ∧
    (script_run COLUMN_MAPPING [] srcFiveRows).rowsRead =
      (script_run COLUMN_MAPPING [] srcFiveRows).duplicatesRemoved +
        (script_run COLUMN_MAPPING [] srcFiveRows).nullDatesRemoved +
          (script_run COLUMN_MAPPING [] srcFiveRows).rowsPersisted :=
  ⟨rfl, C10_theorem COLUMN_MAPPING [] srcFiveRows 3 rfl⟩
